import Mathlib

/-!
# Auth microservice: access/auth API handlers and the user repository

A shallow embedding of

* `internal/repository/auth/repository.go` (the user repository: `Get`, `Create`,
  `Update`, `Delete`, `userExists`, `buildUpdateQuery`),
* `internal/api/auth/getListLogs.go` (the handler `GetListLogs`),
* the handler `DeleteAccess` exercised by `internal/api/access/tests/deleteAccess_test.go`.

Go's `(value, error)` results are kept as pairs or as `Except`; a nil error is `none`.
Collaborators reached through an interface (the services behind the handlers, the
database pool behind the repository) are arbitrary state machines, and every call made
to them is appended to a call record, so that "calls exactly once" and "makes no call"
are statements about that record.  Calls to `log.Printf` and `log.Println` have no
effect on results and are left out.
-/

set_option autoImplicit false

/-! ## Errors -/

/-- The gRPC status codes (`google.golang.org/grpc/codes`) the service distinguishes. -/
inductive Code where
  | OK
  | Canceled
  | Unknown
  | InvalidArgument
  | DeadlineExceeded
  | NotFound
  | AlreadyExists
  | PermissionDenied
  | Internal
  deriving DecidableEq, Repr

/-- A non-nil Go `error`: either a plain error carrying only its text (`errors.New`, a
driver error, a query-builder error), or a gRPC status error (`status.Error`). -/
inductive GoError where
  | errorsNew (text : String)
  | status (code : Code) (msg : String)
  deriving DecidableEq, Repr

/-- Go `status.Error(c, msg)`. -/
def status.Error (c : Code) (msg : String) : GoError := GoError.status c msg

/-- Go `status.Code(err)`: `OK` for a nil error, the code of a status error, `Unknown`
for any other error. -/
def status.Code : Option GoError → Code
  | none => Code.OK
  | some (GoError.status c _) => c
  | some (GoError.errorsNew _) => Code.Unknown

/-! ## The access API handler `DeleteAccess` -/

namespace accessAPI

/-- Go `desc.DeleteRequest`; the zero request has `Id = 0`. -/
structure DeleteRequest where
  Id : Int
  deriving DecidableEq, Repr

/-- Go `emptypb.Empty`. -/
inductive Empty where
  | mk
  deriving DecidableEq, Repr

/-- Go `service.AccessService`, restricted to the method the handler uses: an arbitrary
state machine answering `DeleteAccess(ctx, id)` with nil or an error. -/
structure AccessService (κ σ : Type) where
  DeleteAccess : σ → κ → Int → Option GoError × σ

/-- The service together with the record of the `DeleteAccess` calls it received
(what the minimock controller of the test keeps). -/
structure ServiceConn (κ σ : Type) where
  state : σ
  calls : List (κ × Int)

/-- Modelled from the spec: the handler `Implementation.DeleteAccess` of
`internal/api/access`, whose source file is not among the sources (only its test
`tests/deleteAccess_test.go` is).  Per the spec, a request with a zero `id` fails fast
with InvalidArgument `"Invalid request: Id must be provided"` before touching the
service; otherwise the handler wraps the service 1:1, passing its error through
unchanged and answering an empty result on success. -/
def DeleteAccess {κ σ : Type} (svc : AccessService κ σ) (c : ServiceConn κ σ) (ctx : κ)
    (req : DeleteRequest) : (Option Empty × Option GoError) × ServiceConn κ σ :=
  if req.Id = 0 then
    ((none, some (status.Error Code.InvalidArgument "Invalid request: Id must be provided")), c)
  else
    let r := svc.DeleteAccess c.state ctx req.Id
    let c' : ServiceConn κ σ := ⟨r.2, c.calls ++ [(ctx, req.Id)]⟩
    match r.1 with
    | some err => ((none, some err), c')
    | none => ((some Empty.mk, none), c')

/-- The mock of the test's "success case": `DeleteAccess` returns nil. -/
def successMock : AccessService Unit Unit := ⟨fun s _ _ => (none, s)⟩

/-- The error value `serviceError = errors.New("service error")` of the test. -/
def serviceError : GoError := GoError.errorsNew "service error"

/-- The mock of the test's "error case": `DeleteAccess` returns `serviceError`. -/
def errorMock : AccessService Unit Unit := ⟨fun s _ _ => (some serviceError, s)⟩

end accessAPI

/-! ## The auth API handler `GetListLogs` -/

namespace authAPI

/-- Go `desc.GetListLogsRequest`: the two fields read through `GetPageNumber` and
`GetPageSize`. -/
structure GetListLogsRequest where
  PageNumber : Int
  PageSize : Int
  deriving DecidableEq, Repr

/-- Go `service.AuthService`, restricted to `GetListLogs(ctx, pageNumber, pageSize)`:
an arbitrary state machine answering with a list of logs (of type `L`) or an error. -/
structure AuthService (κ σ L : Type) where
  GetListLogs : σ → κ → Int → Int → Except GoError L × σ

/-- The service together with the record of the `GetListLogs` calls it received. -/
structure ServiceConn (κ σ : Type) where
  state : σ
  calls : List (κ × Int × Int)

/-- Go `Implementation.GetListLogs` (`internal/api/auth/getListLogs.go`).  The converter
`converter.ToLogFromService` is not among the sources and is the parameter
`ToLogFromService`. -/
def GetListLogs {κ σ L R : Type} (ToLogFromService : L → R) (svc : AuthService κ σ L)
    (c : ServiceConn κ σ) (ctx : κ) (req : GetListLogsRequest) :
    (Option R × Option GoError) × ServiceConn κ σ :=
  let pageNumber := req.PageNumber
  let pageSize := req.PageSize
  let pageNumber := if pageNumber = 0 then 1 else pageNumber
  let pageSize := if pageSize = 0 then 5 else pageSize
  let r := svc.GetListLogs c.state ctx pageNumber pageSize
  let c' : ServiceConn κ σ := ⟨r.2, c.calls ++ [(ctx, pageNumber, pageSize)]⟩
  match r.1 with
  | Except.error err => ((none, some err), c')
  | Except.ok listLogs => ((some (ToLogFromService listLogs), none), c')

/-- A service that always fails with the given error. -/
def failingService (e : GoError) : AuthService Unit Unit (List String) :=
  ⟨fun s _ _ _ => (Except.error e, s)⟩

end authAPI

/-! ## SQL values, statements and the query builder -/

/-- A value bound to a placeholder of a statement or held in a column of a result row. -/
inductive SqlValue where
  | int (n : Int)
  | text (s : String)
  | bool (b : Bool)
  | time (t : Nat)
  | null
  deriving DecidableEq, Repr

/-- A statement as handed to the pool, i.e. the pair `(query, args)` that `ToSql`
returns, kept in structured form: the table, the columns and the bound values, instead
of the SQL text with `$n` placeholders (`PlaceholderFormat(sq.Dollar)` only selects the
spelling of the placeholders in that text).  `raw` is a query written out in the source
as a string. -/
inductive Statement where
  | raw (sql : String) (args : List SqlValue)
  | select (columns : List String) (table : String) (whereEq : List (String × SqlValue))
  | insert (table : String) (columns : List String) (values : List (List SqlValue))
      (suffix : String)
  | update (table : String) (setClauses : List (String × SqlValue))
      (whereEq : List (String × SqlValue))
  | delete (table : String) (whereEq : List (String × SqlValue))
  deriving DecidableEq, Repr

/-! The part of the query builder `github.com/Masterminds/squirrel` that the repository
uses.  The library is a dependency, not part of the repository; its builders are
embedded with the validation their `ToSql` performs. -/
namespace sq

/-- Go `sq.Eq`, a map from column to value; the repository only builds one-key maps. -/
abbrev Eq := List (String × SqlValue)

/-- Go `sq.PlaceholderFormat`: how placeholders are spelled in the SQL text, `?` or
`$1, $2, ...`.  It has no bearing on the columns and values of a statement. -/
inductive PlaceholderFormat where
  | Question
  | Dollar
  deriving DecidableEq, Repr

structure SelectBuilder where
  Placeholder : PlaceholderFormat
  Columns : List String
  FromTable : String
  WhereParts : List (String × SqlValue)

def Select (columns : List String) : SelectBuilder :=
  ⟨PlaceholderFormat.Question, columns, "", []⟩

def SelectBuilder.PlaceholderFormat (b : SelectBuilder) (f : PlaceholderFormat) :
    SelectBuilder :=
  { b with Placeholder := f }

def SelectBuilder.From (b : SelectBuilder) (table : String) : SelectBuilder :=
  { b with FromTable := table }

def SelectBuilder.Where (b : SelectBuilder) (pred : Eq) : SelectBuilder :=
  { b with WhereParts := b.WhereParts ++ pred }

def SelectBuilder.ToSql (b : SelectBuilder) : Except GoError Statement :=
  if b.Columns = [] then
    Except.error (GoError.errorsNew "select statements must have at least one result column")
  else
    Except.ok (Statement.select b.Columns b.FromTable b.WhereParts)

structure InsertBuilder where
  Placeholder : PlaceholderFormat
  Into : String
  ColumnNames : List String
  ValueRows : List (List SqlValue)
  Suffixes : List String

def Insert (into : String) : InsertBuilder := ⟨PlaceholderFormat.Question, into, [], [], []⟩

def InsertBuilder.PlaceholderFormat (b : InsertBuilder) (f : PlaceholderFormat) :
    InsertBuilder :=
  { b with Placeholder := f }

def InsertBuilder.Columns (b : InsertBuilder) (columns : List String) : InsertBuilder :=
  { b with ColumnNames := b.ColumnNames ++ columns }

def InsertBuilder.Values (b : InsertBuilder) (values : List SqlValue) : InsertBuilder :=
  { b with ValueRows := b.ValueRows ++ [values] }

def InsertBuilder.Suffix (b : InsertBuilder) (sql : String) : InsertBuilder :=
  { b with Suffixes := b.Suffixes ++ [sql] }

def InsertBuilder.ToSql (b : InsertBuilder) : Except GoError Statement :=
  if b.Into = "" then
    Except.error (GoError.errorsNew "insert statements must specify a table")
  else if b.ValueRows = [] then
    Except.error (GoError.errorsNew
      "insert statements must have at least one set of values or select clause")
  else
    Except.ok (Statement.insert b.Into b.ColumnNames b.ValueRows (" ".intercalate b.Suffixes))

structure UpdateBuilder where
  Placeholder : PlaceholderFormat
  Table : String
  SetClauses : List (String × SqlValue)
  WhereParts : List (String × SqlValue)

def Update (table : String) : UpdateBuilder := ⟨PlaceholderFormat.Question, table, [], []⟩

def UpdateBuilder.PlaceholderFormat (b : UpdateBuilder) (f : PlaceholderFormat) :
    UpdateBuilder :=
  { b with Placeholder := f }

def UpdateBuilder.Set (b : UpdateBuilder) (column : String) (value : SqlValue) :
    UpdateBuilder :=
  { b with SetClauses := b.SetClauses ++ [(column, value)] }

/-- Go `SetMap`: the keys of the map are sorted (`sort.Strings`, the lexicographic
order of the keys read as character sequences) and one `Set` is issued per key, in that
order.  The Go map is given as the list of its entries. -/
def UpdateBuilder.SetMap (b : UpdateBuilder) (clauses : List (String × SqlValue)) :
    UpdateBuilder :=
  (clauses.insertionSort (fun x y => x.1.toList ≤ y.1.toList)).foldl
    (fun b kv => b.Set kv.1 kv.2) b

def UpdateBuilder.Where (b : UpdateBuilder) (pred : Eq) : UpdateBuilder :=
  { b with WhereParts := b.WhereParts ++ pred }

def UpdateBuilder.ToSql (b : UpdateBuilder) : Except GoError Statement :=
  if b.Table = "" then
    Except.error (GoError.errorsNew "update statements must specify a table")
  else if b.SetClauses = [] then
    Except.error (GoError.errorsNew "update statements must have at least one Set clause")
  else
    Except.ok (Statement.update b.Table b.SetClauses b.WhereParts)

structure DeleteBuilder where
  Placeholder : PlaceholderFormat
  FromTable : String
  WhereParts : List (String × SqlValue)

def Delete (table : String) : DeleteBuilder := ⟨PlaceholderFormat.Question, table, []⟩

def DeleteBuilder.PlaceholderFormat (b : DeleteBuilder) (f : PlaceholderFormat) :
    DeleteBuilder :=
  { b with Placeholder := f }

def DeleteBuilder.Where (b : DeleteBuilder) (pred : Eq) : DeleteBuilder :=
  { b with WhereParts := b.WhereParts ++ pred }

def DeleteBuilder.ToSql (b : DeleteBuilder) : Except GoError Statement :=
  if b.FromTable = "" then
    Except.error (GoError.errorsNew "delete statements must specify a From table")
  else
    Except.ok (Statement.delete b.FromTable b.WhereParts)

end sq

/-! ## The database pool -/

/-- One call made on the pool `r.db`. -/
inductive DbCall where
  | QueryRow (st : Statement)
  | Exec (st : Statement)
  deriving DecidableEq, Repr

/-- The pool `*pgxpool.Pool` as the repository sees it: an arbitrary state machine.
`QueryRow` answers with the values of the row found, or with the error that the
following `Scan` will report; `Exec` answers with the number of affected rows
(`RowsAffected` of the command tag) or an error.  The request context is handed to
every call unchanged; what it does (cancellation, deadline) shows as errors of the
pool. -/
structure Database (σ : Type) where
  QueryRow : σ → Statement → Except GoError (List SqlValue) × σ
  Exec : σ → Statement → Except GoError Nat × σ

/-- The pool together with the record of the calls made on it. -/
structure Conn (σ : Type) where
  state : σ
  calls : List DbCall
  deriving Repr

def Database.queryRow {σ : Type} (db : Database σ) (c : Conn σ) (st : Statement) :
    Except GoError (List SqlValue) × Conn σ :=
  ((db.QueryRow c.state st).1, ⟨(db.QueryRow c.state st).2, c.calls ++ [DbCall.QueryRow st]⟩)

def Database.exec {σ : Type} (db : Database σ) (c : Conn σ) (st : Statement) :
    Except GoError Nat × Conn σ :=
  ((db.Exec c.state st).1, ⟨(db.Exec c.state st).2, c.calls ++ [DbCall.Exec st]⟩)

/-- The pool with every error it reports replaced through `f`; rows, counts and state
changes are those of `db`. -/
def Database.mapErrors {σ : Type} (db : Database σ) (f : GoError → GoError) : Database σ :=
  ⟨fun s st =>
      (match (db.QueryRow s st).1 with
        | Except.error err => Except.error (f err)
        | Except.ok row => Except.ok row,
       (db.QueryRow s st).2),
   fun s st =>
      (match (db.Exec s st).1 with
        | Except.error err => Except.error (f err)
        | Except.ok n => Except.ok n,
       (db.Exec s st).2)⟩

/-! ## The model types of the repository

The packages `internal/model`, `internal/repository/auth/model` and
`internal/repository/auth/converter` are not among the sources; the types below have
the fields the repository reads and writes, with the role as a role identifier,
timestamps as numbers, and `UpdatedAt` nullable (a row that was never updated has no
`updated_at`). -/

namespace model

structure Detail where
  Name : String
  Email : String
  Role : Int
  deriving DecidableEq, Repr

structure User where
  ID : Int
  Detail : Detail
  CreatedAt : Nat
  UpdatedAt : Option Nat
  deriving DecidableEq, Repr

structure UpdateUserRequest where
  ID : Int
  Name : String
  Email : String
  deriving DecidableEq, Repr

end model

namespace modelRepo

structure Detail where
  Name : String
  Email : String
  Role : Int
  deriving DecidableEq, Repr

structure User where
  ID : Int
  Detail : Detail
  CreatedAt : Nat
  UpdatedAt : Option Nat
  deriving DecidableEq, Repr

end modelRepo

namespace converter

/-- Modelled from the spec: `converter.ToUserFromRepo`, not among the sources; it turns
the repository's user record into the service's, field by field (id, detail with name,
email and role, timestamps). -/
def ToUserFromRepo (user : modelRepo.User) : model.User :=
  { ID := user.ID
    Detail := { Name := user.Detail.Name, Email := user.Detail.Email, Role := user.Detail.Role }
    CreatedAt := user.CreatedAt
    UpdatedAt := user.UpdatedAt }

end converter

/-! ## The user repository -/

namespace authRepository

def tableName : String := "users"

def idColumn : String := "id"
def nameColumn : String := "name"
def emailColumn : String := "email"
def passwordColumn : String := "password"
def roleColumn : String := "role"
def createdAtColumn : String := "created_at"
def updatedAtColumn : String := "updated_at"

/-- The error a `Scan` reports when the row does not fit its destinations. -/
def scanError : GoError := GoError.errorsNew "can't scan into dest"

/-- Go `Scan(&exists)` with `exists` a `bool`. -/
def scanBool : List SqlValue → Except GoError Bool
  | [SqlValue.bool b] => Except.ok b
  | _ => Except.error scanError

/-- Go `math.MinInt64`. -/
def minInt64 : Int := -9223372036854775808

/-- Go `math.MaxInt64`. -/
def maxInt64 : Int := 9223372036854775807

/-- Go `Scan(&userID)` with `userID` an `int64`: the scan fails for a row that is not a
single integer and for an integer outside the range of `int64`. -/
def scanInt : List SqlValue → Except GoError Int
  | [SqlValue.int n] =>
    if minInt64 ≤ n ∧ n ≤ maxInt64 then Except.ok n else Except.error scanError
  | _ => Except.error scanError

/-- Go `Scan(&user.ID, &user.Detail.Name, &user.Detail.Email, &user.Detail.Role,
&user.CreatedAt, &user.UpdatedAt)`: the values of the row are assigned to the
destinations by position. -/
def scanUser : List SqlValue → Except GoError modelRepo.User
  | [SqlValue.int id, SqlValue.text name, SqlValue.text email, SqlValue.int role,
      SqlValue.time createdAt, SqlValue.time updatedAt] =>
    Except.ok ⟨id, ⟨name, email, role⟩, createdAt, some updatedAt⟩
  | [SqlValue.int id, SqlValue.text name, SqlValue.text email, SqlValue.int role,
      SqlValue.time createdAt, SqlValue.null] =>
    Except.ok ⟨id, ⟨name, email, role⟩, createdAt, none⟩
  | _ => Except.error scanError

/-- Go `(r *repo) userExists`. -/
def userExists {σ : Type} (db : Database σ) (c : Conn σ) (userID : Int) :
    Except GoError Bool × Conn σ :=
  let r := db.queryRow c
    (Statement.raw "SELECT EXISTS(SELECT 1 FROM users WHERE id = $1)" [SqlValue.int userID])
  match r.1 with
  | Except.error err => (Except.error err, r.2)
  | Except.ok row =>
    match scanBool row with
    | Except.error err => (Except.error err, r.2)
    | Except.ok found => (Except.ok found, r.2)

/-- Go `buildUpdateQuery`: the Go map `columns` is the list of its entries. -/
def buildUpdateQuery (user : model.UpdateUserRequest) : Except GoError Statement :=
  let columns : List (String × SqlValue) := []
  let columns := if user.Name ≠ "" then columns ++ [(nameColumn, SqlValue.text user.Name)]
    else columns
  let columns := if user.Email ≠ "" then columns ++ [(emailColumn, SqlValue.text user.Email)]
    else columns
  ((((sq.Update tableName).PlaceholderFormat sq.PlaceholderFormat.Dollar).SetMap
    columns).Where [(idColumn, SqlValue.int user.ID)]).ToSql

/-- Go `(r repo) Get`. -/
def Get {σ : Type} (db : Database σ) (c : Conn σ) (id : Int) :
    (Option model.User × Option GoError) × Conn σ :=
  let e := userExists db c id
  match e.1 with
  | Except.error _ => ((none, some (status.Error Code.Internal "Internal server error")), e.2)
  | Except.ok false => ((none, some (status.Error Code.NotFound "User not found")), e.2)
  | Except.ok true =>
    match ((((sq.Select [idColumn, nameColumn, emailColumn, roleColumn, createdAtColumn,
        updatedAtColumn]).From tableName).PlaceholderFormat
        sq.PlaceholderFormat.Dollar).Where [(idColumn, SqlValue.int id)]).ToSql with
    | Except.error _ =>
      ((none, some (status.Error Code.Internal "Internal server error")), e.2)
    | Except.ok query =>
      let r := db.queryRow e.2 query
      match r.1 with
      | Except.error _ =>
        ((none, some (status.Error Code.Internal "Internal server error")), r.2)
      | Except.ok row =>
        match scanUser row with
        | Except.error _ =>
          ((none, some (status.Error Code.Internal "Internal server error")), r.2)
        | Except.ok user => ((some (converter.ToUserFromRepo user), none), r.2)

/-- Go `(r repo) Create`. -/
def Create {σ : Type} (db : Database σ) (c : Conn σ) (detail : model.Detail)
    (pass : String) : (Int × Option GoError) × Conn σ :=
  match (((((sq.Insert tableName).PlaceholderFormat sq.PlaceholderFormat.Dollar).Columns
      [nameColumn, emailColumn, passwordColumn, roleColumn]).Values
      [SqlValue.text detail.Name, SqlValue.text detail.Email, SqlValue.text pass,
        SqlValue.int detail.Role]).Suffix "RETURNING id").ToSql with
  | Except.error _ => ((0, some (status.Error Code.Internal "Internal server error")), c)
  | Except.ok query =>
    let r := db.queryRow c query
    match r.1 with
    | Except.error _ => ((0, some (status.Error Code.Internal "Internal server error")), r.2)
    | Except.ok row =>
      match scanInt row with
      | Except.error _ =>
        ((0, some (status.Error Code.Internal "Internal server error")), r.2)
      | Except.ok userID => ((userID, none), r.2)

/-- Go `(r repo) Update`. -/
def Update {σ : Type} (db : Database σ) (c : Conn σ) (updateUser : model.UpdateUserRequest) :
    Option GoError × Conn σ :=
  let e := userExists db c updateUser.ID
  match e.1 with
  | Except.error _ => (some (status.Error Code.Internal "Internal server error"), e.2)
  | Except.ok false => (some (status.Error Code.NotFound "User not found"), e.2)
  | Except.ok true =>
    match buildUpdateQuery updateUser with
    | Except.error _ => (some (status.Error Code.Internal "Internal server error"), e.2)
    | Except.ok query =>
      let res := db.exec e.2 query
      match res.1 with
      | Except.error _ => (some (status.Error Code.Internal "Internal server error"), res.2)
      | Except.ok _rowCount => (none, res.2)

/-- Go `(r repo) Delete`. -/
def Delete {σ : Type} (db : Database σ) (c : Conn σ) (id : Int) : Option GoError × Conn σ :=
  let e := userExists db c id
  match e.1 with
  | Except.error _ => (some (status.Error Code.Internal "Internal server error"), e.2)
  | Except.ok false => (some (status.Error Code.NotFound "User not found"), e.2)
  | Except.ok true =>
    match (((sq.Delete "users").PlaceholderFormat sq.PlaceholderFormat.Dollar).Where
        [(idColumn, SqlValue.int id)]).ToSql with
    | Except.error _ => (some (status.Error Code.Internal "Internal server error"), e.2)
    | Except.ok query =>
      let res := db.exec e.2 query
      match res.1 with
      | Except.error _ => (some (status.Error Code.Internal "Internal server error"), res.2)
      | Except.ok _rowCount => (none, res.2)

end authRepository

/-! ## A well-behaved user store

The database itself (its schema and its engine) is outside the repository.  For the
claims that speak of stored rows, the `users` relation of the spec is given as a state
machine answering the statements above. -/

namespace store

/-- Modelled from the spec: a row of the `users` relation
(id, name, email, password, role, created_at, updated_at); the schema is not among the
sources. -/
structure UserRow where
  id : Int
  name : String
  email : String
  password : String
  role : Int
  created_at : Nat
  updated_at : Option Nat
  deriving DecidableEq, Repr

/-- The value a row holds in a column, `none` for a column the relation does not have. -/
def UserRow.get (r : UserRow) (column : String) : Option SqlValue :=
  if column = "id" then some (SqlValue.int r.id)
  else if column = "name" then some (SqlValue.text r.name)
  else if column = "email" then some (SqlValue.text r.email)
  else if column = "password" then some (SqlValue.text r.password)
  else if column = "role" then some (SqlValue.int r.role)
  else if column = "created_at" then some (SqlValue.time r.created_at)
  else if column = "updated_at" then
    some (match r.updated_at with
      | some t => SqlValue.time t
      | none => SqlValue.null)
  else none

/-- The row with one column assigned, `none` when the relation has no such column or
the value is not of the column's type. -/
def UserRow.set (r : UserRow) (column : String) (v : SqlValue) : Option UserRow :=
  match v with
  | SqlValue.int n =>
    if column = "id" then some { r with id := n }
    else if column = "role" then some { r with role := n }
    else none
  | SqlValue.text t =>
    if column = "name" then some { r with name := t }
    else if column = "email" then some { r with email := t }
    else if column = "password" then some { r with password := t }
    else none
  | SqlValue.time t =>
    if column = "created_at" then some { r with created_at := t }
    else if column = "updated_at" then some { r with updated_at := some t }
    else none
  | SqlValue.null =>
    if column = "updated_at" then some { r with updated_at := none }
    else none
  | SqlValue.bool _ => none

/-- The row satisfies every `column = value` condition of a WHERE clause. -/
def UserRow.satisfies (r : UserRow) (whereEq : List (String × SqlValue)) : Bool :=
  whereEq.all (fun cond => decide (r.get cond.1 = some cond.2))

/-- The row with the SET clauses applied, first to last. -/
def UserRow.assign (r : UserRow) : List (String × SqlValue) → Option UserRow
  | [] => some r
  | (column, v) :: rest =>
    match r.set column v with
    | some r' => r'.assign rest
    | none => none

/-- The values of the row in the selected columns, in the order selected. -/
def UserRow.project (r : UserRow) : List String → Option (List SqlValue)
  | [] => some []
  | column :: rest =>
    match r.get column, r.project rest with
    | some v, some vs => some (v :: vs)
    | _, _ => none

/-- Modelled from the spec: the state of the `users` relation: its rows, the next
generated id ("unique integer identifier, generated on creation") and the time that
`created_at` receives. -/
structure Store where
  users : List UserRow
  nextId : Int
  now : Nat
  deriving DecidableEq, Repr

/-- Every matching row assigned; `none` when an assignment is not possible. -/
def updateRows (setClauses whereEq : List (String × SqlValue)) :
    List UserRow → Option (List UserRow)
  | [] => some []
  | r :: rest =>
    match (if r.satisfies whereEq then r.assign setClauses else some r),
      updateRows setClauses whereEq rest with
    | some r', some rest' => some (r' :: rest')
    | _, _ => none

def uniqueViolation : GoError :=
  GoError.errorsNew "ERROR: duplicate key value violates unique constraint (SQLSTATE 23505)"

def noRows : GoError := GoError.errorsNew "no rows in result set"

def undefinedObject : GoError :=
  GoError.errorsNew "ERROR: relation, column or value not accepted (SQLSTATE 42000)"

/-- The row an INSERT builds from its columns and values. -/
def newRow (s : Store) (columns : List String) (values : List SqlValue) : Option UserRow :=
  if columns.length = values.length ∧ columns.Nodup ∧
      "name" ∈ columns ∧ "email" ∈ columns ∧ "password" ∈ columns ∧
      "role" ∈ columns then
    UserRow.assign ⟨s.nextId, "", "", "", 0, s.now, none⟩ (columns.zip values)
  else none

/-- Modelled from the spec: how the `users` relation answers a query that returns a
row.  The existence query reports whether a row has the id; a SELECT returns the first
row meeting the conditions, projected on the selected columns, and fails with "no rows"
when there is none; an INSERT with `RETURNING id` adds a row with a generated id and
returns that id, and fails on a uniqueness violation (the id and the email are
unique).  Statements of any other shape, which the repository never issues, are
refused. -/
def queryRow (s : Store) : Statement → Except GoError (List SqlValue) × Store
  | Statement.raw sql args =>
    if sql = "SELECT EXISTS(SELECT 1 FROM users WHERE id = $1)" then
      match args with
      | [SqlValue.int id] =>
        (Except.ok [SqlValue.bool (s.users.any (fun r => decide (r.id = id)))], s)
      | _ => (Except.error undefinedObject, s)
    else (Except.error undefinedObject, s)
  | Statement.select columns table whereEq =>
    if table = "users" then
      match s.users.find? (fun r => r.satisfies whereEq) with
      | none => (Except.error noRows, s)
      | some r =>
        match r.project columns with
        | some vs => (Except.ok vs, s)
        | none => (Except.error undefinedObject, s)
    else (Except.error undefinedObject, s)
  | Statement.insert table columns [values] suffix =>
    if table = "users" ∧ suffix = "RETURNING id" then
      match newRow s columns values with
      | none => (Except.error undefinedObject, s)
      | some r =>
        if s.users.any (fun r' => decide (r'.id = r.id ∨ r'.email = r.email)) then
          (Except.error uniqueViolation, s)
        else
          (Except.ok [SqlValue.int r.id], { s with users := s.users ++ [r], nextId := r.id + 1 })
    else (Except.error undefinedObject, s)
  | _ => (Except.error undefinedObject, s)

/-- Modelled from the spec: how the `users` relation answers a statement that returns
no row.  An UPDATE assigns the SET clauses in every row meeting the conditions, and
fails when that would break the uniqueness of the id or of the email; a DELETE removes
the rows meeting the conditions; both report the number of rows affected. -/
def exec (s : Store) : Statement → Except GoError Nat × Store
  | Statement.update table setClauses whereEq =>
    if table = "users" then
      match updateRows setClauses whereEq s.users with
      | none => (Except.error undefinedObject, s)
      | some users' =>
        if ((s.users.map (fun r => r.id)).Nodup → (users'.map (fun r => r.id)).Nodup) ∧
            ((s.users.map (fun r => r.email)).Nodup → (users'.map (fun r => r.email)).Nodup)
        then
          (Except.ok (s.users.countP (fun r => r.satisfies whereEq)),
            { s with users := users' })
        else (Except.error uniqueViolation, s)
    else (Except.error undefinedObject, s)
  | Statement.delete table whereEq =>
    if table = "users" then
      (Except.ok (s.users.countP (fun r => r.satisfies whereEq)),
        { s with users := s.users.filter (fun r => !(r.satisfies whereEq)) })
    else (Except.error undefinedObject, s)
  | _ => (Except.error undefinedObject, s)

/-- The `users` relation as a database pool. -/
def pg : Database Store := ⟨queryRow, exec⟩

/-- A pool on which another client acts between the calls of this one: after every
query of this client that returns a row, `other` is applied to the state. -/
def interleaved {σ : Type} (db : Database σ) (other : σ → σ) : Database σ :=
  ⟨fun s st => ((db.QueryRow s st).1, other (db.QueryRow s st).2), db.Exec⟩

/-- Another client deleting the user with the given id. -/
def deleteUser (id : Int) (s : Store) : Store :=
  { s with users := s.users.filter (fun r => decide (r.id ≠ id)) }

/-- A store holding the single user of the spec's example: name "A", email "a@x.com". -/
def example1 : Store :=
  ⟨[⟨1, "A", "a@x.com", "secret", 2, 100, none⟩], 2, 200⟩

end store

/-! ## Theorems -/

/-- C1: for every context and every DeleteRequest whose Id is 0, the handler
DeleteAccess returns a nil response and exactly the status InvalidArgument with message
"Invalid request: Id must be provided", and the service is left as it was: its state is
untouched and no call is added to its call record. -/
theorem deleteAccess_zero_id_invalid_argument {κ σ : Type}
    (svc : accessAPI.AccessService κ σ) (c : accessAPI.ServiceConn κ σ) (ctx : κ)
    (req : accessAPI.DeleteRequest) (h : req.Id = 0) :
    accessAPI.DeleteAccess svc c ctx req
      = ((none, some (GoError.status Code.InvalidArgument
            "Invalid request: Id must be provided")), c) := by
  simp [accessAPI.DeleteAccess, h, status.Error]

/-- C1 on the test's "error with empty id" case: the zero request, a mock that would
fail if called. -/
theorem deleteAccess_zero_id_invalid_argument_witness :
    (⟨0⟩ : accessAPI.DeleteRequest).Id = 0 ∧
    accessAPI.DeleteAccess accessAPI.errorMock ⟨(), []⟩ () ⟨0⟩
      = ((none, some (GoError.status Code.InvalidArgument
            "Invalid request: Id must be provided")), ⟨(), []⟩) :=
  ⟨rfl, deleteAccess_zero_id_invalid_argument accessAPI.errorMock ⟨(), []⟩ () ⟨0⟩ rfl⟩

/-- C2: for every DeleteRequest with a non-zero Id, the handler DeleteAccess calls the
service's DeleteAccess exactly once, with exactly the handler's context and the
request's Id (on the service state it was given), and returns the service's outcome
unchanged: an error e gives (nil, e) with the same e, and nil gives (an empty result,
nil). -/
theorem deleteAccess_passes_service_outcome {κ σ : Type}
    (svc : accessAPI.AccessService κ σ) (c : accessAPI.ServiceConn κ σ) (ctx : κ)
    (req : accessAPI.DeleteRequest) (h : req.Id ≠ 0) :
    (accessAPI.DeleteAccess svc c ctx req).2.calls = c.calls ++ [(ctx, req.Id)] ∧
    (accessAPI.DeleteAccess svc c ctx req).2.state
      = (svc.DeleteAccess c.state ctx req.Id).2 ∧
    (∀ e, (svc.DeleteAccess c.state ctx req.Id).1 = some e →
      (accessAPI.DeleteAccess svc c ctx req).1 = (none, some e)) ∧
    ((svc.DeleteAccess c.state ctx req.Id).1 = none →
      (accessAPI.DeleteAccess svc c ctx req).1 = (some accessAPI.Empty.mk, none)) := by
  unfold accessAPI.DeleteAccess
  simp only [h, if_false]
  cases hr : (svc.DeleteAccess c.state ctx req.Id).1 <;> simp

/-- C2 on the test's "error case" and "success case": request id 1, a mock returning
the service error and a mock returning nil. -/
theorem deleteAccess_passes_service_outcome_witness :
    (⟨1⟩ : accessAPI.DeleteRequest).Id ≠ 0 ∧
    (accessAPI.DeleteAccess accessAPI.errorMock ⟨(), []⟩ () ⟨1⟩).2.calls = [((), 1)] ∧
    (accessAPI.DeleteAccess accessAPI.errorMock ⟨(), []⟩ () ⟨1⟩).1
      = (none, some (GoError.errorsNew "service error")) ∧
    (accessAPI.DeleteAccess accessAPI.successMock ⟨(), []⟩ () ⟨1⟩).1
      = (some accessAPI.Empty.mk, none) :=
  ⟨by decide,
   (deleteAccess_passes_service_outcome accessAPI.errorMock ⟨(), []⟩ () ⟨1⟩ (by decide)).1,
   (deleteAccess_passes_service_outcome accessAPI.errorMock ⟨(), []⟩ () ⟨1⟩
      (by decide)).2.2.1 _ rfl,
   (deleteAccess_passes_service_outcome accessAPI.successMock ⟨(), []⟩ () ⟨1⟩
      (by decide)).2.2.2 rfl⟩

/-- C10: for every GetListLogsRequest, the handler GetListLogs calls the service's
GetListLogs exactly once, with the handler's context and with a page number and a page
size that are both non-zero: page number 0 is replaced by 1 and page size 0 by 5, every
non-zero value is passed through unchanged; and if the service returns an error the
handler returns (nil, that same error). -/
theorem getListLogs_defaults_and_error_passthrough {κ σ L R : Type}
    (conv : L → R) (svc : authAPI.AuthService κ σ L) (c : authAPI.ServiceConn κ σ)
    (ctx : κ) (req : authAPI.GetListLogsRequest) :
    (authAPI.GetListLogs conv svc c ctx req).2.calls
      = c.calls ++ [(ctx, (if req.PageNumber = 0 then 1 else req.PageNumber),
          (if req.PageSize = 0 then 5 else req.PageSize))] ∧
    (authAPI.GetListLogs conv svc c ctx req).2.state
      = (svc.GetListLogs c.state ctx (if req.PageNumber = 0 then 1 else req.PageNumber)
          (if req.PageSize = 0 then 5 else req.PageSize)).2 ∧
    (if req.PageNumber = 0 then 1 else req.PageNumber) ≠ 0 ∧
    (if req.PageSize = 0 then 5 else req.PageSize) ≠ 0 ∧
    (∀ e, (svc.GetListLogs c.state ctx (if req.PageNumber = 0 then 1 else req.PageNumber)
        (if req.PageSize = 0 then 5 else req.PageSize)).1 = Except.error e →
      (authAPI.GetListLogs conv svc c ctx req).1 = (none, some e)) := by
  refine ⟨?_, ?_, ?_, ?_, ?_⟩
  · unfold authAPI.GetListLogs
    cases hr : (svc.GetListLogs c.state ctx
        (if req.PageNumber = 0 then 1 else req.PageNumber)
        (if req.PageSize = 0 then 5 else req.PageSize)).1 <;> simp [hr]
  · unfold authAPI.GetListLogs
    cases hr : (svc.GetListLogs c.state ctx
        (if req.PageNumber = 0 then 1 else req.PageNumber)
        (if req.PageSize = 0 then 5 else req.PageSize)).1 <;> simp [hr]
  · split <;> simp_all
  · split <;> simp_all
  · intro e he
    unfold authAPI.GetListLogs
    simp [he]

/-- C10 on a zero request and a failing service: the service is called once with page
number 1 and page size 5, and its error is returned as it is. -/
theorem getListLogs_defaults_and_error_passthrough_witness :
    (authAPI.GetListLogs (fun l : List String => l.length)
        (authAPI.failingService (GoError.errorsNew "service error")) ⟨(), []⟩ () ⟨0, 0⟩).2.calls
      = [((), 1, 5)] ∧
    (authAPI.GetListLogs (fun l : List String => l.length)
        (authAPI.failingService (GoError.errorsNew "service error")) ⟨(), []⟩ () ⟨0, 0⟩).1
      = (none, some (GoError.errorsNew "service error")) :=
  ⟨(getListLogs_defaults_and_error_passthrough (fun l : List String => l.length)
      (authAPI.failingService (GoError.errorsNew "service error")) ⟨(), []⟩ () ⟨0, 0⟩).1,
   (getListLogs_defaults_and_error_passthrough (fun l : List String => l.length)
      (authAPI.failingService (GoError.errorsNew "service error")) ⟨(), []⟩ () ⟨0, 0⟩).2.2.2.2
      _ rfl⟩

/-! ### Helper lemmas -/

/-- The statement `buildUpdateQuery` builds, case by case. -/
theorem buildUpdateQuery_eq (user : model.UpdateUserRequest) :
    authRepository.buildUpdateQuery user =
      if user.Name = "" ∧ user.Email = "" then
        Except.error (GoError.errorsNew "update statements must have at least one Set clause")
      else
        Except.ok (Statement.update "users"
          ((if user.Email = "" then [] else [("email", SqlValue.text user.Email)]) ++
            (if user.Name = "" then [] else [("name", SqlValue.text user.Name)]))
          [("id", SqlValue.int user.ID)]) := by
  have hle : ¬ (['n', 'a', 'm', 'e'] ≤ ['e', 'm', 'a', 'i', 'l']) := by decide
  by_cases hn : user.Name = "" <;> by_cases he : user.Email = "" <;>
    simp [authRepository.buildUpdateQuery, sq.Update, sq.UpdateBuilder.PlaceholderFormat,
      sq.UpdateBuilder.SetMap,
      sq.UpdateBuilder.Set, sq.UpdateBuilder.Where, sq.UpdateBuilder.ToSql,
      authRepository.tableName, authRepository.nameColumn, authRepository.emailColumn,
      authRepository.idColumn, hn, he, hle, List.insertionSort, List.orderedInsert]

/-- What `userExists` answers when the existence query returns a one-column boolean row. -/
theorem userExists_of_bool {σ : Type} (db : Database σ) (c : Conn σ) (id : Int) (b : Bool)
    (h : (db.QueryRow c.state (Statement.raw
      "SELECT EXISTS(SELECT 1 FROM users WHERE id = $1)" [SqlValue.int id])).1
        = Except.ok [SqlValue.bool b]) :
    authRepository.userExists db c id =
      (Except.ok b, ⟨(db.QueryRow c.state (Statement.raw
        "SELECT EXISTS(SELECT 1 FROM users WHERE id = $1)" [SqlValue.int id])).2,
        c.calls ++ [DbCall.QueryRow (Statement.raw
          "SELECT EXISTS(SELECT 1 FROM users WHERE id = $1)" [SqlValue.int id])]⟩) := by
  simp [authRepository.userExists, Database.queryRow, h, authRepository.scanBool]

/-- C3: for every UpdateUserRequest, the update statement built by buildUpdateQuery is
an UPDATE of the users table that sets the name column (to the request's Name) if and
only if Name is non-empty, sets the email column (to the request's Email) if and only
if Email is non-empty, sets no other column, and is restricted to the row whose id
equals the request's ID; a statement is built whenever one of the two fields is
non-empty.  In particular, on a store holding one user, Update with only a non-empty
name replaces the name and leaves the email (and every other column) untouched: a stored
user with name "A" and email "a@x.com" updated with only name "B" has name "B" and
email "a@x.com". -/
theorem buildUpdateQuery_touches_only_supplied_columns (user : model.UpdateUserRequest) :
    (∀ st, authRepository.buildUpdateQuery user = Except.ok st →
      ∃ setClauses, st = Statement.update "users" setClauses [("id", SqlValue.int user.ID)] ∧
        (("name", SqlValue.text user.Name) ∈ setClauses ↔ user.Name ≠ "") ∧
        (("email", SqlValue.text user.Email) ∈ setClauses ↔ user.Email ≠ "") ∧
        (∀ column v, (column, v) ∈ setClauses →
          (column = "name" ∧ v = SqlValue.text user.Name ∧ user.Name ≠ "") ∨
          (column = "email" ∧ v = SqlValue.text user.Email ∧ user.Email ≠ ""))) ∧
    ((user.Name ≠ "" ∨ user.Email ≠ "") →
      ∃ st, authRepository.buildUpdateQuery user = Except.ok st) ∧
    (∀ (r : store.UserRow) (nextId : Int) (now : Nat) (calls : List DbCall),
      user.ID = r.id → user.Name ≠ "" → user.Email = "" →
      authRepository.Update store.pg ⟨⟨[r], nextId, now⟩, calls⟩ user =
        (none, ⟨⟨[{ r with name := user.Name }], nextId, now⟩,
          calls ++ [DbCall.QueryRow (Statement.raw
              "SELECT EXISTS(SELECT 1 FROM users WHERE id = $1)" [SqlValue.int r.id]),
            DbCall.Exec (Statement.update "users" [("name", SqlValue.text user.Name)]
              [("id", SqlValue.int r.id)])]⟩)) := by
  refine ⟨?_, ?_, ?_⟩
  · intro st hst
    rw [buildUpdateQuery_eq] at hst
    by_cases hn : user.Name = "" <;> by_cases he : user.Email = "" <;>
      simp [hn, he] at hst <;> subst hst <;> simp [hn, he]
    tauto
  · intro h
    rw [buildUpdateQuery_eq]
    by_cases hn : user.Name = "" <;> by_cases he : user.Email = "" <;> simp_all
  · intro r nextId now calls hid hn he
    have hq : authRepository.buildUpdateQuery user = Except.ok (Statement.update "users"
        [("name", SqlValue.text user.Name)] [("id", SqlValue.int r.id)]) := by
      rw [buildUpdateQuery_eq]; simp [hn, he, hid]
    have hex := userExists_of_bool store.pg ⟨⟨[r], nextId, now⟩, calls⟩ r.id true
      (by simp [store.pg, store.queryRow])
    simp only [authRepository.Update, hid, hex, hq]
    simp [Database.exec, store.pg, store.exec, store.queryRow, store.updateRows,
      store.UserRow.satisfies, store.UserRow.get, store.UserRow.assign, store.UserRow.set]

/-- The example of C3: a statement is built for the patch with only name "B", and the
stored user with name "A" and email "a@x.com" becomes name "B", email "a@x.com". -/
theorem buildUpdateQuery_touches_only_supplied_columns_witness :
    (∃ st, authRepository.buildUpdateQuery ⟨1, "B", ""⟩ = Except.ok st) ∧
    authRepository.Update store.pg
        ⟨⟨[⟨1, "A", "a@x.com", "secret", 2, 100, none⟩], 2, 200⟩, []⟩ ⟨1, "B", ""⟩ =
      (none, ⟨⟨[⟨1, "B", "a@x.com", "secret", 2, 100, none⟩], 2, 200⟩,
        [DbCall.QueryRow (Statement.raw
            "SELECT EXISTS(SELECT 1 FROM users WHERE id = $1)" [SqlValue.int 1]),
          DbCall.Exec (Statement.update "users" [("name", SqlValue.text "B")]
            [("id", SqlValue.int 1)])]⟩) :=
  ⟨(buildUpdateQuery_touches_only_supplied_columns ⟨1, "B", ""⟩).2.1 (Or.inl (by decide)),
   (buildUpdateQuery_touches_only_supplied_columns ⟨1, "B", ""⟩).2.2
      ⟨1, "A", "a@x.com", "secret", 2, 100, none⟩ 2 200 [] rfl (by decide) rfl⟩

/-- C4: evaluation at the failing input.  On the store holding user 1, the existence
check of Update passes, yet Update with the entirely empty patch returns the Internal
status "Internal server error" instead of nil: buildUpdateQuery fails for want of a
Set clause.  No UPDATE is executed and the stored row is unchanged. -/
theorem update_empty_patch_returns_internal :
    (authRepository.userExists store.pg ⟨store.example1, []⟩ 1).1 = Except.ok true ∧
    authRepository.buildUpdateQuery ⟨1, "", ""⟩
      = Except.error (GoError.errorsNew "update statements must have at least one Set clause") ∧
    authRepository.Update store.pg ⟨store.example1, []⟩ ⟨1, "", ""⟩ =
      (some (GoError.status Code.Internal "Internal server error"),
        ⟨store.example1, [DbCall.QueryRow (Statement.raw
          "SELECT EXISTS(SELECT 1 FROM users WHERE id = $1)" [SqlValue.int 1])]⟩) := by
  have hex := userExists_of_bool store.pg ⟨store.example1, []⟩ 1 true
    (by simp [store.pg, store.queryRow, store.example1])
  have hq : authRepository.buildUpdateQuery ⟨1, "", ""⟩
      = Except.error (GoError.errorsNew "update statements must have at least one Set clause") := by
    rw [buildUpdateQuery_eq]; simp
  refine ⟨by rw [hex], hq, ?_⟩
  simp only [authRepository.Update, hex, hq]
  simp [store.pg, store.queryRow, status.Error]

/-- C5: for every user id for which the existence check succeeds and reports that no
row exists, the repository's Update and Delete each return the NotFound status "User not
found"; the only call made on the database is the existence query, so no UPDATE or
DELETE statement is executed and the store is as the existence query left it. -/
theorem update_delete_not_found_short_circuit {σ : Type} (db : Database σ) (c : Conn σ)
    (updateUser : model.UpdateUserRequest) (id : Int)
    (hu : (db.QueryRow c.state (Statement.raw
      "SELECT EXISTS(SELECT 1 FROM users WHERE id = $1)" [SqlValue.int updateUser.ID])).1
        = Except.ok [SqlValue.bool false])
    (hd : (db.QueryRow c.state (Statement.raw
      "SELECT EXISTS(SELECT 1 FROM users WHERE id = $1)" [SqlValue.int id])).1
        = Except.ok [SqlValue.bool false]) :
    authRepository.Update db c updateUser =
      (some (GoError.status Code.NotFound "User not found"),
        ⟨(db.QueryRow c.state (Statement.raw
          "SELECT EXISTS(SELECT 1 FROM users WHERE id = $1)" [SqlValue.int updateUser.ID])).2,
         c.calls ++ [DbCall.QueryRow (Statement.raw
          "SELECT EXISTS(SELECT 1 FROM users WHERE id = $1)" [SqlValue.int updateUser.ID])]⟩) ∧
    authRepository.Delete db c id =
      (some (GoError.status Code.NotFound "User not found"),
        ⟨(db.QueryRow c.state (Statement.raw
          "SELECT EXISTS(SELECT 1 FROM users WHERE id = $1)" [SqlValue.int id])).2,
         c.calls ++ [DbCall.QueryRow (Statement.raw
          "SELECT EXISTS(SELECT 1 FROM users WHERE id = $1)" [SqlValue.int id])]⟩) := by
  constructor
  · simp only [authRepository.Update, userExists_of_bool db c updateUser.ID false hu]
    rfl
  · simp only [authRepository.Delete, userExists_of_bool db c id false hd]
    rfl

/-- C5 on the example store: ids 5 and 7 are not stored; the store is unchanged. -/
theorem update_delete_not_found_short_circuit_witness :
    authRepository.Update store.pg ⟨store.example1, []⟩ ⟨5, "B", "b@x.com"⟩ =
      (some (GoError.status Code.NotFound "User not found"),
        ⟨store.example1, [DbCall.QueryRow (Statement.raw
          "SELECT EXISTS(SELECT 1 FROM users WHERE id = $1)" [SqlValue.int 5])]⟩) ∧
    authRepository.Delete store.pg ⟨store.example1, []⟩ 7 =
      (some (GoError.status Code.NotFound "User not found"),
        ⟨store.example1, [DbCall.QueryRow (Statement.raw
          "SELECT EXISTS(SELECT 1 FROM users WHERE id = $1)" [SqlValue.int 7])]⟩) :=
  update_delete_not_found_short_circuit store.pg ⟨store.example1, []⟩ ⟨5, "B", "b@x.com"⟩ 7
    rfl rfl

/-- C6, as stated, fails: with another client deleting user 1 right after the existence
check, the check of Update and of Delete passes, the executed UPDATE and DELETE each
report zero affected rows, and both operations return nil (Success), not NotFound. -/
theorem update_delete_zero_rows_is_success :
    (authRepository.userExists (store.interleaved store.pg (store.deleteUser 1))
      ⟨store.example1, []⟩ 1).1 = Except.ok true ∧
    ((store.interleaved store.pg (store.deleteUser 1)).exec
      (authRepository.userExists (store.interleaved store.pg (store.deleteUser 1))
        ⟨store.example1, []⟩ 1).2
      (Statement.update "users" [("name", SqlValue.text "B")] [("id", SqlValue.int 1)])).1
        = Except.ok 0 ∧
    (authRepository.Update (store.interleaved store.pg (store.deleteUser 1))
      ⟨store.example1, []⟩ ⟨1, "B", ""⟩).1 = none ∧
    (authRepository.Update (store.interleaved store.pg (store.deleteUser 1))
      ⟨store.example1, []⟩ ⟨1, "B", ""⟩).1
        ≠ some (GoError.status Code.NotFound "User not found") ∧
    ((store.interleaved store.pg (store.deleteUser 1)).exec
      (authRepository.userExists (store.interleaved store.pg (store.deleteUser 1))
        ⟨store.example1, []⟩ 1).2
      (Statement.delete "users" [("id", SqlValue.int 1)])).1 = Except.ok 0 ∧
    (authRepository.Delete (store.interleaved store.pg (store.deleteUser 1))
      ⟨store.example1, []⟩ 1).1 = none ∧
    (authRepository.Delete (store.interleaved store.pg (store.deleteUser 1))
      ⟨store.example1, []⟩ 1).1
        ≠ some (GoError.status Code.NotFound "User not found") := by
  have hq : authRepository.buildUpdateQuery ⟨1, "B", ""⟩ = Except.ok (Statement.update "users"
      [("name", SqlValue.text "B")] [("id", SqlValue.int 1)]) := by
    rw [buildUpdateQuery_eq]; simp
  have hu : (authRepository.Update (store.interleaved store.pg (store.deleteUser 1))
      ⟨store.example1, []⟩ ⟨1, "B", ""⟩).1 = none := by
    rw [authRepository.Update, hq]; rfl
  have hd : (authRepository.Delete (store.interleaved store.pg (store.deleteUser 1))
      ⟨store.example1, []⟩ 1).1 = none := rfl
  refine ⟨rfl, rfl, hu, ?_, rfl, hd, ?_⟩
  · rw [hu]; simp
  · rw [hd]; simp

/-- C6, amended: for the repository's Update and Delete, each on its own: whenever the
existence check passes and the mutation statement is executed without error, the
operation returns nil (Success) whatever number of affected rows is reported, zero
included; the count is only logged. -/
theorem update_delete_success_whatever_row_count {σ : Type} (db : Database σ) (c : Conn σ)
    (updateUser : model.UpdateUserRequest) (id : Int) :
    (∀ (query : Statement) (n : Nat),
      (authRepository.userExists db c updateUser.ID).1 = Except.ok true →
      authRepository.buildUpdateQuery updateUser = Except.ok query →
      (db.exec (authRepository.userExists db c updateUser.ID).2 query).1 = Except.ok n →
      authRepository.Update db c updateUser
        = (none, (db.exec (authRepository.userExists db c updateUser.ID).2 query).2)) ∧
    (∀ m : Nat,
      (authRepository.userExists db c id).1 = Except.ok true →
      (db.exec (authRepository.userExists db c id).2
        (Statement.delete "users" [("id", SqlValue.int id)])).1 = Except.ok m →
      authRepository.Delete db c id
        = (none, (db.exec (authRepository.userExists db c id).2
            (Statement.delete "users" [("id", SqlValue.int id)])).2)) := by
  constructor
  · intro query n hu hq hn
    simp only [authRepository.Update, hu, hq, hn]
  · intro m hd hm
    simp [authRepository.Delete, hd, sq.Delete, sq.DeleteBuilder.PlaceholderFormat,
      sq.DeleteBuilder.Where, sq.DeleteBuilder.ToSql, authRepository.idColumn, hm]

/-- The amended C6 at the race of the counterexample: zero rows are reported and both
operations return nil. -/
theorem update_delete_success_whatever_row_count_witness :
    ((store.interleaved store.pg (store.deleteUser 1)).exec
      (authRepository.userExists (store.interleaved store.pg (store.deleteUser 1))
        ⟨store.example1, []⟩ 1).2
      (Statement.update "users" [("name", SqlValue.text "B")] [("id", SqlValue.int 1)])).1
        = Except.ok 0 ∧
    ((store.interleaved store.pg (store.deleteUser 1)).exec
      (authRepository.userExists (store.interleaved store.pg (store.deleteUser 1))
        ⟨store.example1, []⟩ 1).2
      (Statement.delete "users" [("id", SqlValue.int 1)])).1 = Except.ok 0 ∧
    (authRepository.Update (store.interleaved store.pg (store.deleteUser 1))
      ⟨store.example1, []⟩ ⟨1, "B", ""⟩).1 = none ∧
    (authRepository.Delete (store.interleaved store.pg (store.deleteUser 1))
      ⟨store.example1, []⟩ 1).1 = none :=
  have hq : authRepository.buildUpdateQuery ⟨1, "B", ""⟩ = Except.ok (Statement.update "users"
      [("name", SqlValue.text "B")] [("id", SqlValue.int 1)]) := by
    rw [buildUpdateQuery_eq]; simp
  have h := update_delete_success_whatever_row_count
    (store.interleaved store.pg (store.deleteUser 1)) ⟨store.example1, []⟩ ⟨1, "B", ""⟩ 1
  have hu := h.1 (Statement.update "users" [("name", SqlValue.text "B")]
    [("id", SqlValue.int 1)]) 0 rfl hq rfl
  have hd := h.2 0 rfl rfl
  ⟨rfl, rfl, by rw [hu], by rw [hd]⟩

/-- The results of the four repository operations do not depend on which errors the
pool reports, only on whether it reports one. -/
theorem repository_mapErrors {σ : Type} (db : Database σ) (f : GoError → GoError)
    (c : Conn σ) (id : Int) (detail : model.Detail) (pass : String)
    (updateUser : model.UpdateUserRequest) :
    authRepository.Get (db.mapErrors f) c id = authRepository.Get db c id ∧
    authRepository.Create (db.mapErrors f) c detail pass
      = authRepository.Create db c detail pass ∧
    authRepository.Update (db.mapErrors f) c updateUser = authRepository.Update db c updateUser ∧
    authRepository.Delete (db.mapErrors f) c id = authRepository.Delete db c id := by
  refine ⟨?_, ?_, ?_, ?_⟩
  · simp only [authRepository.Get, authRepository.userExists, Database.queryRow,
      Database.mapErrors, sq.Select, sq.SelectBuilder.PlaceholderFormat,
      sq.SelectBuilder.From, sq.SelectBuilder.Where,
      sq.SelectBuilder.ToSql]
    rcases h : (db.QueryRow c.state (Statement.raw
      "SELECT EXISTS(SELECT 1 FROM users WHERE id = $1)" [SqlValue.int id])).1 with e | row
    · simp
    · simp only []
      rcases h2 : authRepository.scanBool row with e | b
      · simp
      · cases b
        · simp
        · simp only [List.nil_append, reduceCtorEq, if_false]
          rcases h3 : (db.QueryRow (db.QueryRow c.state (Statement.raw
            "SELECT EXISTS(SELECT 1 FROM users WHERE id = $1)" [SqlValue.int id])).2
            (Statement.select [authRepository.idColumn, authRepository.nameColumn,
              authRepository.emailColumn, authRepository.roleColumn,
              authRepository.createdAtColumn, authRepository.updatedAtColumn]
              authRepository.tableName [(authRepository.idColumn, SqlValue.int id)])).1
            with e | row2
          · simp
          · simp
  · simp only [authRepository.Create, Database.queryRow, Database.mapErrors, sq.Insert,
      sq.InsertBuilder.PlaceholderFormat,
      sq.InsertBuilder.Columns, sq.InsertBuilder.Values, sq.InsertBuilder.Suffix,
      sq.InsertBuilder.ToSql, authRepository.tableName]
    simp only [List.nil_append, String.reduceEq, reduceCtorEq, if_false]
    rcases h : (db.QueryRow c.state (Statement.insert "users"
      [authRepository.nameColumn, authRepository.emailColumn, authRepository.passwordColumn,
        authRepository.roleColumn]
      [[SqlValue.text detail.Name, SqlValue.text detail.Email, SqlValue.text pass,
        SqlValue.int detail.Role]] (" ".intercalate ["RETURNING id"]))).1 with e | row
    · simp
    · simp
  · simp only [authRepository.Update, authRepository.userExists, Database.queryRow,
      Database.exec, Database.mapErrors]
    rcases h : (db.QueryRow c.state (Statement.raw
      "SELECT EXISTS(SELECT 1 FROM users WHERE id = $1)" [SqlValue.int updateUser.ID])).1
      with e | row
    · simp
    · simp only []
      rcases h2 : authRepository.scanBool row with e | b
      · simp
      · cases b
        · simp
        · simp only []
          rcases h3 : authRepository.buildUpdateQuery updateUser with e | query
          · simp
          · simp only []
            rcases h4 : (db.Exec (db.QueryRow c.state (Statement.raw
              "SELECT EXISTS(SELECT 1 FROM users WHERE id = $1)"
              [SqlValue.int updateUser.ID])).2 query).1 with e | n
            · simp
            · simp
  · simp only [authRepository.Delete, authRepository.userExists, Database.queryRow,
      Database.exec, Database.mapErrors, sq.Delete, sq.DeleteBuilder.PlaceholderFormat,
      sq.DeleteBuilder.Where,
      sq.DeleteBuilder.ToSql]
    rcases h : (db.QueryRow c.state (Statement.raw
      "SELECT EXISTS(SELECT 1 FROM users WHERE id = $1)" [SqlValue.int id])).1 with e | row
    · simp
    · simp only []
      rcases h2 : authRepository.scanBool row with e | b
      · simp
      · cases b
        · simp
        · simp only [List.nil_append, String.reduceEq, if_false]
          rcases h4 : (db.Exec (db.QueryRow c.state (Statement.raw
            "SELECT EXISTS(SELECT 1 FROM users WHERE id = $1)" [SqlValue.int id])).2
            (Statement.delete "users" [(authRepository.idColumn, SqlValue.int id)])).1
            with e | n
          · simp
          · simp

/-- C7: for every input and every behaviour of the database, the error returned by the
user repository's Get, Create, Update or Delete is nil, the NotFound status with message
"User not found", or the Internal status with the fixed message "Internal server error".
The text of a raw storage or query-building error never reaches the caller: replacing
every error the database reports by any other error changes nothing in what the four
operations return. -/
theorem repository_errors_not_found_or_internal {σ : Type} (db : Database σ) (c : Conn σ)
    (id : Int) (detail : model.Detail) (pass : String) (updateUser : model.UpdateUserRequest) :
    ((authRepository.Get db c id).1.2 = none ∨
      (authRepository.Get db c id).1.2 = some (GoError.status Code.NotFound "User not found") ∨
      (authRepository.Get db c id).1.2
        = some (GoError.status Code.Internal "Internal server error")) ∧
    ((authRepository.Create db c detail pass).1.2 = none ∨
      (authRepository.Create db c detail pass).1.2
        = some (GoError.status Code.NotFound "User not found") ∨
      (authRepository.Create db c detail pass).1.2
        = some (GoError.status Code.Internal "Internal server error")) ∧
    ((authRepository.Update db c updateUser).1 = none ∨
      (authRepository.Update db c updateUser).1
        = some (GoError.status Code.NotFound "User not found") ∨
      (authRepository.Update db c updateUser).1
        = some (GoError.status Code.Internal "Internal server error")) ∧
    ((authRepository.Delete db c id).1 = none ∨
      (authRepository.Delete db c id).1 = some (GoError.status Code.NotFound "User not found") ∨
      (authRepository.Delete db c id).1
        = some (GoError.status Code.Internal "Internal server error")) ∧
    (∀ f : GoError → GoError,
      authRepository.Get (db.mapErrors f) c id = authRepository.Get db c id ∧
      authRepository.Create (db.mapErrors f) c detail pass
        = authRepository.Create db c detail pass ∧
      authRepository.Update (db.mapErrors f) c updateUser
        = authRepository.Update db c updateUser ∧
      authRepository.Delete (db.mapErrors f) c id = authRepository.Delete db c id) := by
  refine ⟨?_, ?_, ?_, ?_, fun f => repository_mapErrors db f c id detail pass updateUser⟩
  · simp only [authRepository.Get]
    rcases hx1 : (authRepository.userExists db c id).1 with e | b
    · simp [status.Error]
    · cases b
      · simp [status.Error]
      · simp only []
        rcases hx2 : ((((sq.Select [authRepository.idColumn, authRepository.nameColumn,
          authRepository.emailColumn, authRepository.roleColumn,
          authRepository.createdAtColumn, authRepository.updatedAtColumn]).From
          authRepository.tableName).PlaceholderFormat sq.PlaceholderFormat.Dollar).Where
          [(authRepository.idColumn, SqlValue.int id)]).ToSql with e | query
        · simp [status.Error]
        · simp only []
          rcases hx3 : (db.queryRow (authRepository.userExists db c id).2 query).1 with e | row
          · simp [status.Error]
          · simp only []
            rcases hx4 : authRepository.scanUser row with e | user
            · simp [status.Error]
            · simp
  · simp only [authRepository.Create]
    rcases hx5 : (((((sq.Insert authRepository.tableName).PlaceholderFormat
      sq.PlaceholderFormat.Dollar).Columns
      [authRepository.nameColumn, authRepository.emailColumn, authRepository.passwordColumn,
        authRepository.roleColumn]).Values
      [SqlValue.text detail.Name, SqlValue.text detail.Email, SqlValue.text pass,
        SqlValue.int detail.Role]).Suffix "RETURNING id").ToSql with e | query
    · simp [status.Error]
    · simp only []
      rcases hx6 : (db.queryRow c query).1 with e | row
      · simp [status.Error]
      · simp only []
        rcases hx7 : authRepository.scanInt row with e | userID
        · simp [status.Error]
        · simp
  · simp only [authRepository.Update]
    rcases hx8 : (authRepository.userExists db c updateUser.ID).1 with e | b
    · simp [status.Error]
    · cases b
      · simp [status.Error]
      · simp only []
        rcases hx9 : authRepository.buildUpdateQuery updateUser with e | query
        · simp [status.Error]
        · simp only []
          rcases hx10 : (db.exec (authRepository.userExists db c updateUser.ID).2 query).1
            with e | n
          · simp [status.Error]
          · simp
  · simp only [authRepository.Delete]
    rcases hx11 : (authRepository.userExists db c id).1 with e | b
    · simp [status.Error]
    · cases b
      · simp [status.Error]
      · simp only []
        rcases hx12 : (((sq.Delete "users").PlaceholderFormat sq.PlaceholderFormat.Dollar).Where
          [(authRepository.idColumn, SqlValue.int id)]).ToSql with e | query
        · simp [status.Error]
        · simp only []
          rcases hx13 : (db.exec (authRepository.userExists db c id).2 query).1 with e | n
          · simp [status.Error]
          · simp

/-- C8, as stated, fails: on the store holding a user with email "a@x.com", Create with
that email makes the insert fail with a uniqueness violation, and Create returns id 0
with the Internal status "Internal server error", whose code is not AlreadyExists. -/
theorem create_duplicate_email_returns_internal :
    (store.pg.QueryRow store.example1 (Statement.insert "users"
      ["name", "email", "password", "role"]
      [[SqlValue.text "C", SqlValue.text "a@x.com", SqlValue.text "pw", SqlValue.int 3]]
      "RETURNING id")).1 = Except.error store.uniqueViolation ∧
    (authRepository.Create store.pg ⟨store.example1, []⟩ ⟨"C", "a@x.com", 3⟩ "pw").1
      = (0, some (GoError.status Code.Internal "Internal server error")) ∧
    status.Code
        (authRepository.Create store.pg ⟨store.example1, []⟩ ⟨"C", "a@x.com", 3⟩ "pw").1.2
      ≠ Code.AlreadyExists := by
  refine ⟨rfl, rfl, ?_⟩
  have h :
      (authRepository.Create store.pg ⟨store.example1, []⟩ ⟨"C", "a@x.com", 3⟩ "pw").1.2
      = some (GoError.status Code.Internal "Internal server error") := rfl
  rw [h]
  decide

/-- C8, amended: when the insert issued by the repository's Create fails, be it with a
uniqueness violation on an email that already belongs to a stored user or with any
other error, Create returns id 0 and the Internal status "Internal server error". -/
theorem create_insert_failure_returns_internal {σ : Type} (db : Database σ) (c : Conn σ)
    (detail : model.Detail) (pass : String) (e : GoError)
    (h : (db.QueryRow c.state (Statement.insert "users" ["name", "email", "password", "role"]
      [[SqlValue.text detail.Name, SqlValue.text detail.Email, SqlValue.text pass,
        SqlValue.int detail.Role]] "RETURNING id")).1 = Except.error e) :
    (authRepository.Create db c detail pass).1
      = (0, some (GoError.status Code.Internal "Internal server error")) ∧
    status.Code (authRepository.Create db c detail pass).1.2 = Code.Internal := by
  have hc : (authRepository.Create db c detail pass).1
      = (0, some (GoError.status Code.Internal "Internal server error")) := by
    simp [authRepository.Create, Database.queryRow, sq.Insert,
      sq.InsertBuilder.PlaceholderFormat, sq.InsertBuilder.Columns,
      sq.InsertBuilder.Values, sq.InsertBuilder.Suffix, sq.InsertBuilder.ToSql,
      authRepository.tableName, authRepository.nameColumn, authRepository.emailColumn,
      authRepository.passwordColumn, authRepository.roleColumn, String.intercalate,
      String.intercalate.go, h, status.Error]
  refine ⟨hc, ?_⟩
  rw [hc]
  rfl

/-- The amended C8 on the example store, for the duplicate email "a@x.com". -/
theorem create_insert_failure_returns_internal_witness :
    (store.pg.QueryRow store.example1 (Statement.insert "users"
      ["name", "email", "password", "role"]
      [[SqlValue.text "C", SqlValue.text "a@x.com", SqlValue.text "pw", SqlValue.int 3]]
      "RETURNING id")).1 = Except.error store.uniqueViolation ∧
    (authRepository.Create store.pg ⟨store.example1, []⟩ ⟨"C", "a@x.com", 3⟩ "pw").1
      = (0, some (GoError.status Code.Internal "Internal server error")) :=
  ⟨rfl, (create_insert_failure_returns_internal store.pg ⟨store.example1, []⟩
    ⟨"C", "a@x.com", 3⟩ "pw" store.uniqueViolation rfl).1⟩

